import Mathlib

/-!
Verification of the HeartGuard AI heart-disease predictor (`app.py`).

The app collects five clinical values from range-limited widgets, encodes
them into a single fixed-order feature row, calls the pickled classifier's
`predict` (and, best-effort, `predict_proba`) and renders one of two result
templates. The following shallow embedding mirrors the inference-relevant
code of `app.py`; numeric values are embedded as rationals (the Python
values in play are ints and decimal floats).
-/

namespace HeartGuard

/-- The five widget-entered fields of `app.py` §5: `cp_display` (selectbox
keys 0..3), `thal_display` (selectbox keys 1..3), `ca` (selectbox 0..4),
`thalach` (slider 60..220), `oldpeak` (number input 0.0..10.0). -/
structure ClinicalInput where
  cp : ℕ
  thal : ℕ
  ca : ℕ
  thalach : ℕ
  oldpeak : ℚ

/-- Widget-enforced ranges of the five inputs. -/
def ClinicalInput.valid (i : ClinicalInput) : Prop :=
  i.cp ≤ 3 ∧ 1 ≤ i.thal ∧ i.thal ≤ 3 ∧ i.ca ≤ 4 ∧
  60 ≤ i.thalach ∧ i.thalach ≤ 220 ∧ 0 ≤ i.oldpeak ∧ i.oldpeak ≤ 10

instance (i : ClinicalInput) : Decidable i.valid := by
  unfold ClinicalInput.valid; infer_instance

/-- The single feature row `[cp_display, thal_display, ca, thalach, oldpeak]`
(`app.py` line 193, inner list). -/
def featureRow (i : ClinicalInput) : List ℚ :=
  [(i.cp : ℚ), (i.thal : ℚ), (i.ca : ℚ), (i.thalach : ℚ), i.oldpeak]

/-- Embedding of `input_data = [[cp_display, thal_display, ca, thalach, oldpeak]]`
(`app.py` line 193): a batch of exactly one feature row. -/
def input_data (i : ClinicalInput) : List (List ℚ) :=
  [featureRow i]

/-- The loaded classifier as the code uses it: `predict` maps one feature
row to an integer label; `predict_proba` maps one feature row to a
probability row, `none` standing for the call raising or being
unsupported (the bare `except` at `app.py` line 203 makes all failure
modes equivalent). -/
structure Classifier where
  predict : List ℚ → ℤ
  predict_proba : List ℚ → Option (List ℚ)

/-- Embedding of `prediction = model.predict(input_data)` (`app.py` line 196): one label
per batch row. -/
def prediction (m : Classifier) (i : ClinicalInput) : List ℤ :=
  (input_data i).map m.predict

/-- Embedding of `result = prediction[0]` (`app.py` line 197). -/
def result (m : Classifier) (i : ClinicalInput) : ℤ :=
  (prediction m i).headI

/-- Embedding of `np.max` over the probability row: fold of `max` with base 0. (NumPy
takes the maximum of the entries; for a probability row, whose entries are
nonnegative, the base 0 does not change the maximum.) -/
def npMax (l : List ℚ) : ℚ :=
  l.foldr max 0

/-- Lines 200-204 of `app.py`: `confidence = np.max(proba) * 100` inside a
`try`, with a bare `except` setting `confidence = 0`. -/
def confidence (m : Classifier) (i : ClinicalInput) : ℚ :=
  match m.predict_proba (featureRow i) with
  | some ps => npMax ps * 100
  | none => 0

/-- Two-decimal rendering of a rational, matching Python `{x:.2f}` on the
exactly representable nonnegative values this app displays. -/
def format2 (q : ℚ) : String :=
  let c : ℤ := round (q * 100)
  let ip := c / 100
  let fp := (c % 100).toNat
  toString ip ++ "." ++ (if fp < 10 then "0" ++ toString fp else toString fp)

/-- The two result cards of `app.py`: `result-card-danger` (high risk) and
`result-card-safe` (low risk / healthy). -/
inductive ResultCard
  | danger
  | safe
deriving DecidableEq, Repr

/-- What the result branch of `app.py` (lines 208-233) renders: which card,
whether `st.balloons()` fires, and the optional confidence line. -/
structure ResultView where
  card : ResultCard
  balloons : Bool
  confidenceLine : Option String
deriving DecidableEq, Repr

/-- The confidence line `st.write(f"**Model Confidence:** ...%")`, emitted
only when `confidence > 0` (`app.py` lines 218-219 and 232-233). -/
def confidenceDisplay (conf : ℚ) : Option String :=
  if conf > 0 then some ("**Model Confidence:** " ++ format2 conf ++ "%") else none

/-- Lines 208-233 of `app.py`: `if result == 1` renders the danger card,
`else` renders the safe card and fires `st.balloons()`; both branches then
show the confidence line iff `confidence > 0`. -/
def render (res : ℤ) (conf : ℚ) : ResultView :=
  if res = 1 then
    { card := .danger, balloons := false, confidenceLine := confidenceDisplay conf }
  else
    { card := .safe, balloons := true, confidenceLine := confidenceDisplay conf }

/-- State of the artifact file `heart_disease_model.pkl` at load time. -/
inductive ArtifactState
  | present (m : Classifier)
  | missing
  | corrupt

/-- Outcome of running a Python snippet: normal value or escaped exception
(named by its Python exception class). -/
inductive PyResult (α : Type)
  | ok (a : α)
  | raised (e : String)
deriving DecidableEq

/-- Embedding of `load_model` (`app.py` lines 106-113): `open` raises `FileNotFoundError`
when the file is missing, which the `except FileNotFoundError` clause
catches (an error notice is shown and `None` returned); `pickle.load` on a
corrupt file raises `UnpicklingError`, which no clause catches, so it
escapes. -/
def load_model : ArtifactState → PyResult (Option Classifier)
  | .present m => .ok (some m)
  | .missing => .ok none
  | .corrupt => .raised "UnpicklingError"

/-- The main page's possible states: the `else` notice `Awaiting model
file...` (line 236), the input form with the button not yet pressed, or a
rendered prediction result. -/
inductive View
  | awaitingModel
  | form
  | resultView (r : ResultView)
deriving DecidableEq

/-- One interaction of the app body (`app.py` lines 143-236), with counts of
how many times the feature encoding, `model.predict` and
`model.predict_proba` run during it. -/
structure AppTrace where
  view : View
  encodeCalls : ℕ
  predictCalls : ℕ
  probaCalls : ℕ
deriving DecidableEq

/-- The `if model:` dispatch (`app.py` line 143): with no model only the
waiting notice renders; with a model, pressing the button encodes the
inputs, predicts, attempts `predict_proba` and renders the result. -/
def app (m : Option Classifier) (pressed : Bool) (i : ClinicalInput) : AppTrace :=
  match m with
  | none => { view := .awaitingModel, encodeCalls := 0, predictCalls := 0, probaCalls := 0 }
  | some c =>
    if pressed then
      { view := .resultView (render (result c i) (confidence c i)),
        encodeCalls := 1, predictCalls := 1, probaCalls := 1 }
    else
      { view := .form, encodeCalls := 0, predictCalls := 0, probaCalls := 0 }

end HeartGuard

namespace HeartGuard

/-- Modelled from the spec: the classifier artifact
`heart_disease_model.pkl` is an opaque external file, not part of `src/`;
per the spec's data model, it exposes classify(FeatureVector) into the two-element label set
and is immutable after load, so it embeds as a pure function into `Fin 2`. -/
structure SpecClassifier where
  classify : List ℚ → Fin 2

/-- Modelled from the spec: the `@st.cache_resource` decorator (streamlit
library behavior, not part of `src/`) memoizes the decorated function's
result; per the spec, "Result is memoized for the remainder of the process
so repeated requests do not reload the file." One call: if the cache holds
a value, return it untouched without invoking the loader; otherwise invoke
the loader once and store the value. Returns (value, new cache, whether
the loader was invoked). -/
def cache_resource {α : Type} (f : Unit → α) : Option α → α × Option α × Bool
  | some r => (r, some r, false)
  | none => (f (), some (f ()), true)

/-- A sequence of `n` requests through the memoizing cache: returns the list
of per-request values, the final cache, and the number of loader
invocations. -/
def callSeq {α : Type} (f : Unit → α) : ℕ → Option α → List α × Option α × ℕ
  | 0, s => ([], s, 0)
  | n + 1, s =>
    let step := cache_resource f s
    let rest := callSeq f n step.2.1
    (step.1 :: rest.1, rest.2.1, rest.2.2 + (if step.2.2 then 1 else 0))

end HeartGuard

namespace HeartGuard

/-- Scenario A classifier: label 0 with probability row giving 87.5 percent
confidence. -/
def modelA : Classifier :=
  { predict := fun _ => 0, predict_proba := fun _ => some [1/8, 7/8] }

/-- Scenario A input: cp=0, thal=2, ca=0, thalach=150, oldpeak=1.0. -/
def inputA : ClinicalInput := ⟨0, 2, 0, 150, 1⟩

/-- Scenario B classifier: label 1, probability estimation raising. -/
def modelB : Classifier :=
  { predict := fun _ => 1, predict_proba := fun _ => none }

/-- Scenario B input: cp=3, thal=1, ca=3, thalach=90, oldpeak=4.2. -/
def inputB : ClinicalInput := ⟨3, 1, 3, 90, 21/5⟩

/-- A classifier that violates the binary data contract, returning label 2. -/
def modelOutOfRange : Classifier :=
  { predict := fun _ => 2, predict_proba := fun _ => none }

/-- In both render branches the confidence line appears exactly when the
confidence is positive. -/
lemma render_confidenceLine_isSome (r : ℤ) (conf : ℚ) :
    (render r conf).confidenceLine.isSome ↔ 0 < conf := by
  unfold render confidenceDisplay
  by_cases h : r = 1 <;> by_cases hc : 0 < conf <;> simp [h, hc]

/-- The fold of max with base 0 is nonnegative. -/
lemma npMax_nonneg (ps : List ℚ) : 0 ≤ npMax ps := by
  induction ps with
  | nil => simp [npMax]
  | cons a t ih =>
    simp only [npMax, List.foldr] at ih ⊢
    exact le_trans ih (le_max_right a _)

/-- The fold of max with base 0 is at most 1 when every entry is. -/
lemma npMax_le_one (ps : List ℚ) (h : ∀ p ∈ ps, p ≤ 1) : npMax ps ≤ 1 := by
  induction ps with
  | nil => simp [npMax]
  | cons a t ih =>
    simp only [npMax, List.foldr] at ih ⊢
    exact max_le (h a (by simp)) (ih fun p hp => h p (by simp [hp]))

end HeartGuard

namespace HeartGuard

/-- C1 counterexample: with a classifier returning the out-of-contract label
2, the app silently renders the low-risk template (one of the two result
templates, balloons included) instead of reporting a data-contract
violation. -/
theorem unexpected_label_rendered_silently :
    (app (some modelOutOfRange) true inputA).view =
      View.resultView ⟨ResultCard.safe, true, none⟩ := by
  decide

/-- C1 amended: a label outside the binary set is not reported; the
presentation layer silently takes the else branch, rendering the low-risk
template with the celebratory cue (the code only distinguishes label 1 from
everything else). -/
theorem unexpected_label_defaults_to_safe (r : ℤ) (conf : ℚ)
    (h0 : r ≠ 0) (h1 : r ≠ 1) :
    render r conf = ⟨ResultCard.safe, true, confidenceDisplay conf⟩ := by
  unfold render
  simp [h1]

/-- Witness for the amended C1 theorem at label 2, confidence 0. -/
theorem unexpected_label_defaults_to_safe_witness :
    render 2 0 = ⟨ResultCard.safe, true, confidenceDisplay 0⟩ :=
  unexpected_label_defaults_to_safe 2 0 (by decide) (by decide)

/-- C2 counterexample: a corrupt artifact file makes `load_model` raise an
uncaught `UnpicklingError` — only `FileNotFoundError` is caught — so the
loader does not return an unavailable state on every missing-or-corrupt
attempt. -/
theorem corrupt_artifact_raises_uncaught :
    load_model ArtifactState.corrupt = PyResult.raised "UnpicklingError" := rfl

/-- C2 amended: when the artifact file is missing, the loader returns the
explicit unavailable state (None) without raising, and the caller then
suppresses inference and presentation entirely, showing only the waiting
notice; a corrupt file, by contrast, is not handled. -/
theorem missing_artifact_unavailable_and_suppressed :
    load_model ArtifactState.missing = PyResult.ok none ∧
    ∀ (b : Bool) (i : ClinicalInput),
      app none b i = ⟨View.awaitingModel, 0, 0, 0⟩ :=
  ⟨rfl, fun _ _ => rfl⟩

/-- C3: when probability estimation fails (bare except path), the failure is
absorbed: confidence becomes 0, no confidence line is rendered, and the
primary label is still computed and rendered on the matching card. -/
theorem proba_failure_absorbed (m : Classifier) (i : ClinicalInput)
    (h : m.predict_proba (featureRow i) = none) :
    confidence m i = 0 ∧
    (render (result m i) (confidence m i)).confidenceLine = none ∧
    (render (result m i) (confidence m i)).card =
      (if result m i = 1 then ResultCard.danger else ResultCard.safe) ∧
    (app (some m) true i).view =
      View.resultView (render (result m i) (confidence m i)) := by
  have hc : confidence m i = 0 := by unfold confidence; rw [h]
  refine ⟨hc, ?_, ?_, rfl⟩
  · rw [hc]; unfold render confidenceDisplay
    by_cases h1 : result m i = 1 <;> simp [h1]
  · unfold render
    by_cases h1 : result m i = 1 <;> simp [h1]

/-- Witness for C3 at Scenario B: label 1, probability estimation raising. -/
theorem proba_failure_absorbed_witness :
    confidence modelB inputB = 0 ∧
    (render (result modelB inputB) (confidence modelB inputB)).confidenceLine = none ∧
    (render (result modelB inputB) (confidence modelB inputB)).card =
      (if result modelB inputB = 1 then ResultCard.danger else ResultCard.safe) ∧
    (app (some modelB) true inputB).view =
      View.resultView (render (result modelB inputB) (confidence modelB inputB)) :=
  proba_failure_absorbed modelB inputB rfl

/-- C4: for every valid ClinicalInput the encoder emits exactly five
elements, in the fixed order [cp, thal, ca, thalach, oldpeak], each raw
value passed through unchanged, and the batch holds exactly that row. -/
theorem encoder_five_fixed_order_raw (i : ClinicalInput) (h : i.valid) :
    (featureRow i).length = 5 ∧
    featureRow i = [(i.cp : ℚ), (i.thal : ℚ), (i.ca : ℚ), (i.thalach : ℚ), i.oldpeak] ∧
    input_data i = [featureRow i] :=
  ⟨rfl, rfl, rfl⟩

/-- Witness for C4 at the Scenario A input. -/
theorem encoder_five_fixed_order_raw_witness :
    inputA.valid ∧
    ((featureRow inputA).length = 5 ∧
     featureRow inputA =
       [(inputA.cp : ℚ), (inputA.thal : ℚ), (inputA.ca : ℚ), (inputA.thalach : ℚ),
        inputA.oldpeak] ∧
     input_data inputA = [featureRow inputA]) :=
  ⟨by decide, encoder_five_fixed_order_raw inputA (by decide)⟩

/-- C5: with the model unavailable, no interaction runs the encoder, the
classifier or the probability call; only the awaiting-model notice is
shown. -/
theorem artifact_missing_no_inference (b : Bool) (i : ClinicalInput) :
    (app none b i).view = View.awaitingModel ∧
    (app none b i).encodeCalls = 0 ∧
    (app none b i).predictCalls = 0 ∧
    (app none b i).probaCalls = 0 :=
  ⟨rfl, rfl, rfl, rfl⟩

end HeartGuard

namespace HeartGuard

/-- C6, Scenario A: for input cp=0, thal=2, ca=0, thalach=150, oldpeak=1.0
and a classifier returning label 0 with confidence 87.5, the rendered
result is the low-risk/healthy card, with balloons, and the confidence
line showing 87.50 percent; encode, predict and the probability call each
run once. -/
theorem scenarioA_low_risk_8750 :
    app (some modelA) true inputA =
      ⟨View.resultView ⟨ResultCard.safe, true,
        some "**Model Confidence:** 87.50%"⟩, 1, 1, 1⟩ := by
  have hc : confidence modelA inputA = 175 / 2 := by
    unfold confidence modelA npMax
    norm_num
  have hr : result modelA inputA = 0 := rfl
  show AppTrace.mk
      (View.resultView (render (result modelA inputA) (confidence modelA inputA)))
      1 1 1 = _
  rw [hc, hr]
  unfold render
  norm_num
  rw [confidenceDisplay]
  norm_num
  rw [format2]
  norm_num [round_eq]
  rfl

/-- C7: when probability estimation succeeds with a genuine distribution
(nonnegative entries summing to 1), the confidence is the maximum
probability mass times 100, lies in the range 0 to 100, and in every
render branch the confidence line appears exactly when that confidence is
positive. -/
theorem confidence_is_max_proba_percent (m : Classifier) (i : ClinicalInput)
    (ps : List ℚ) (hps : m.predict_proba (featureRow i) = some ps)
    (hnn : ∀ p ∈ ps, 0 ≤ p) (hsum : ps.sum = 1) :
    confidence m i = npMax ps * 100 ∧
    0 ≤ confidence m i ∧ confidence m i ≤ 100 ∧
    ∀ r : ℤ, ((render r (confidence m i)).confidenceLine.isSome ↔
      0 < confidence m i) := by
  have hc : confidence m i = npMax ps * 100 := by unfold confidence; rw [hps]
  have hub : npMax ps ≤ 1 := by
    refine npMax_le_one ps fun p hp => ?_
    calc p ≤ ps.sum := List.single_le_sum hnn p hp
    _ = 1 := hsum
  refine ⟨hc, ?_, ?_, fun r => render_confidenceLine_isSome r _⟩
  · rw [hc]
    have := npMax_nonneg ps
    positivity
  · rw [hc]
    nlinarith [npMax_nonneg ps]

/-- Witness for C7 at the Scenario A classifier and input, whose
probability row is the distribution with masses 1/8 and 7/8. -/
theorem confidence_is_max_proba_percent_witness :
    confidence modelA inputA = npMax [1/8, 7/8] * 100 ∧
    0 ≤ confidence modelA inputA ∧ confidence modelA inputA ≤ 100 ∧
    ∀ r : ℤ, ((render r (confidence modelA inputA)).confidenceLine.isSome ↔
      0 < confidence modelA inputA) :=
  confidence_is_max_proba_percent modelA inputA [1/8, 7/8] rfl
    (by norm_num) (by norm_num)

/-- C8 (classifier modelled from the spec as a pure function into the
binary label set): classifying the same feature vector twice yields the
same label, and every label is 0 or 1. -/
theorem classify_deterministic_binary (c : SpecClassifier) (v : List ℚ) :
    c.classify v = c.classify v ∧
    ((c.classify v).val = 0 ∨ (c.classify v).val = 1) :=
  ⟨rfl, by have := (c.classify v).isLt; omega⟩

/-- Requests against an already-populated cache never invoke the loader and
always return the cached value. -/
lemma callSeq_cached {α : Type} (f : Unit → α) (n : ℕ) (r : α) :
    callSeq f n (some r) = (List.replicate n r, some r, 0) := by
  induction n with
  | zero => rfl
  | succ k ih => simp [callSeq, cache_resource, ih, List.replicate]

/-- C9 (cache modelled from the spec's memoization contract): across any
number of requests in one process, every request observes the same
`load_model` outcome and the loader runs at most once — in particular the
unavailable outcome of a missing artifact is terminal for the process. -/
theorem load_model_memoized_once (art : ArtifactState) (n : ℕ) :
    (callSeq (fun _ => load_model art) n none).1 =
      List.replicate n (load_model art) ∧
    (callSeq (fun _ => load_model art) n none).2.2 ≤ 1 := by
  cases n with
  | zero => exact ⟨rfl, by simp [callSeq]⟩
  | succ k =>
    constructor
    · simp [callSeq, cache_resource, callSeq_cached, List.replicate]
    · simp [callSeq, cache_resource, callSeq_cached]

/-- C10: the high-risk card renders exactly when the label is 1; every
other label — 0 or out of range alike — renders the low-risk card with
the balloons cue. -/
theorem label_one_iff_danger (r : ℤ) (conf : ℚ) :
    ((render r conf).card = ResultCard.danger ↔ r = 1) ∧
    (r ≠ 1 → render r conf = ⟨ResultCard.safe, true, confidenceDisplay conf⟩) := by
  unfold render
  constructor
  · by_cases h1 : r = 1 <;> simp [h1]
  · intro h1; simp [h1]

/-- Witness for C10 at label 0: the low-risk card and balloons render. -/
theorem label_one_iff_danger_witness :
    render 0 5 = ⟨ResultCard.safe, true, confidenceDisplay 5⟩ :=
  (label_one_iff_danger 0 5).2 (by decide)

end HeartGuard
